import Mathlib

/-!
Verification of the hotline relay (a local WebSocket command/event bridge).

The development shallowly embeds the relay server (`src/server.ts`, final
snapshot) and the application-side client (`src/client.ts`): sockets become
natural-number identifiers, the JS `Map`s become association lists preserving
insertion order (as JS `Map` iteration does), `setTimeout` timers become an
explicit set of armed timers each carrying the values its JS closure captured,
and every frame handler becomes a pure function from state and inbound frame
to the successor state together with the ordered list of `socket.send` calls
it performs.
-/

namespace Hotline

/-- Socket identity: a live connection, compared by reference in the source. -/
abbrev Sock := Nat

/-- JS string truthiness of an optional string field (`undefined`, `null` and
`""` are falsy). -/
def otruthy : Option String → Bool
  | none => false
  | some s => !s.isEmpty

-- ── Association-list model of JS `Map` ──

/-- Models `Map.get`: the value stored under `k`, if any. -/
def mapGet {K V : Type} [BEq K] (l : List (K × V)) (k : K) : Option V :=
  (l.find? (fun e => e.1 == k)).map (·.2)

/-- Models `Map.set`: overwrite in place if the key is present (JS `Map` keeps the
original insertion position), append otherwise. -/
def mapSet {K V : Type} [BEq K] (k : K) (v : V) : List (K × V) → List (K × V)
  | [] => [(k, v)]
  | e :: rest => if e.1 == k then (k, v) :: rest else e :: mapSet k v rest

/-- Models `Map.delete`: remove the entry stored under `k`. -/
def mapDel {K V : Type} [BEq K] (l : List (K × V)) (k : K) : List (K × V) :=
  l.filter (fun e => !(e.1 == k))

-- ── Protocol data (src/types.ts) ──

/-- A field of an advertised handler schema (`HandlerField` in src/types.ts).
`ftype` stands for the source's `type` field (one of string/number/boolean/json). -/
structure HandlerField where
  name : String
  ftype : String
  optional : Option Bool
  description : Option String
deriving DecidableEq, Repr

/-- An advertised handler schema (`HandlerSchema` in src/types.ts). -/
structure HandlerSchema where
  htype : String
  description : Option String
  fields : Option (List HandlerField)
deriving DecidableEq, Repr

/-- Opaque request payload. Only the `appId` field is ever inspected by the
relay (by the `list-handlers` built-in); `rest` stands for the remaining,
uninterpreted JSON content so that distinct payloads stay distinguishable. -/
structure Payload where
  appId : Option String
  rest : Nat
deriving DecidableEq, Repr

/-- A registered application connection (`AppConnection` in src/types.ts);
`handlers` is absent when the registration frame carried none. -/
structure AppConnection where
  appId : String
  connectedAt : Nat
  handlers : Option (List HandlerSchema)
deriving DecidableEq, Repr

/-- A pending correlation (`PendingRequest` in src/types.ts): the client to
answer, the application the request went to, and the armed timer's identity. -/
structure PendingRequest where
  cliSocket : Sock
  appSocket : Sock
  timer : Nat
deriving DecidableEq, Repr

/-- An armed `setTimeout` timer for a forwarded request, carrying the values
its closure captured in the source: the request id and the originating
client socket (`ws` and `msg.id` at arm time), plus its absolute expiry. -/
structure ArmedTimer where
  tid : Nat
  reqId : String
  cli : Sock
  expiry : Nat
deriving DecidableEq, Repr

/-- Per-connection data attached at upgrade time (`ClientData` in the server). -/
structure ClientData where
  role : String
  appId : Option String
deriving DecidableEq, Repr

/-- An inbound frame, decoded from JSON: every protocol-relevant field is
optional, as in the duck-typed source which probes `msg.type`, `msg.ok`, etc. -/
structure Msg where
  mtype : Option String
  role : Option String
  appId : Option String
  handlers : Option (List HandlerSchema)
  ok : Option Bool
  id : Option String
  payload : Option Payload
deriving DecidableEq, Repr

/-- Structured data of a built-in command's success response. -/
inductive RespData where
  /-- Models `{}` — the `ping` handler's result. -/
  | obj0 : RespData
  /-- The `list-apps` result: port, pid, uptime and `(appId, connectedAt)` rows. -/
  | appsInfo (port pid uptime : Nat) (apps : List (String × Nat)) : RespData
  /-- The `list-handlers` result: `(appId, handlers)` rows. -/
  | handlersInfo (entries : List (String × List HandlerSchema)) : RespData
deriving DecidableEq, Repr

/-- A frame pushed to a watcher by `broadcast` (the inner `msg` field). -/
inductive BMsg where
  /-- Models `{type:"register", appId, handlers}` broadcast on registration. -/
  | regNotice (appId : String) (handlers : Option (List HandlerSchema)) : BMsg
  /-- Models `{type:"disconnect", appId}` broadcast on app disconnect. -/
  | discNotice (appId : String) : BMsg
  /-- Models `{id, type, payload}` broadcast when a request is forwarded. -/
  | reqNotice (id mtype : String) (payload : Option Payload) : BMsg
  /-- The app's response frame, broadcast verbatim. -/
  | resNotice (m : Msg) : BMsg
deriving DecidableEq, Repr

/-- One `socket.send` performed by the relay. -/
inductive Wire where
  /-- Models `send(ws, {id, ok, data?, error?})`. -/
  | resp (id : String) (ok : Bool) (data : Option RespData) (error : Option String) : Wire
  /-- A response frame forwarded verbatim (`cliWs.send(JSON.stringify(msg))`). -/
  | verbatim (m : Msg) : Wire
  /-- A request forwarded to an app (`appSocket.send({id, type, payload})`). -/
  | fwd (id mtype : String) (payload : Option Payload) : Wire
  /-- A watcher broadcast (`{dir, appId?, msg}`). -/
  | bcast (dir : String) (appId : Option String) (inner : BMsg) : Wire
  /-- An event frame `{type:"event", appId, event, data}` (spec §4.2 fan-out). -/
  | eventFrame (appId event : String) (data : Option Payload) : Wire
deriving DecidableEq, Repr

/-- The relay server's mutable state: the `apps` and `pendingRequests` maps,
the `watchers` set, the per-connection `ws.data`, the armed timers, and a
fresh-timer counter standing for `setTimeout`'s handle allocation. -/
structure ServerState where
  apps : List (Sock × AppConnection)
  watchers : List Sock
  pending : List (String × PendingRequest)
  conns : List (Sock × ClientData)
  timers : List ArmedTimer
  nextTid : Nat
deriving DecidableEq, Repr

/-- Relay process identity reported by `list-apps`. -/
structure ServerConfig where
  port : Nat
  pid : Nat
  uptime : Nat
deriving DecidableEq, Repr

/-- The server-side safety timeout for a forwarded request (30_000 ms). -/
def REQUEST_TIMEOUT_MS : Nat := 30000

/-- Reconnection backoff cap (`RECONNECT_CAP_MS` in src/types.ts). -/
def RECONNECT_CAP_MS : Nat := 30000

-- ── App routing (src/server.ts `findAppSocket`, `listAppIds`) ──

/-- Models `findAppSocket`: resolve a target application socket.  Empty registry →
`null`; no (truthy) target → the sole app if exactly one is registered, else
`null` (ambiguous, the caller handles the error); target given → the first
registered app whose `appId` equals it, else `null`. -/
def findAppSocket (apps : List (Sock × AppConnection)) (targetAppId : Option String) :
    Option Sock :=
  match apps with
  | [] => none
  | e :: rest =>
    if !(otruthy targetAppId) then
      if rest.isEmpty then some e.1 else none
    else
      match (e :: rest).filter (fun x => x.2.appId == targetAppId.getD "") with
      | [] => none
      | m :: _ => some m.1

/-- JS `Set` insertion-order deduplication (`[...new Set(l)]`). -/
def dedupFirst : List String → List String
  | [] => []
  | x :: xs => x :: dedupFirst (xs.filter (fun y => !(y == x)))
termination_by l => l.length
decreasing_by
  simp only [List.length_cons]
  exact Nat.lt_succ_of_le (List.length_filter_le _ _)

/-- Models `listAppIds`: the connected app ids with duplicates removed,
`[...new Set(...)]` keeping first-occurrence order. -/
def listAppIds (apps : List (Sock × AppConnection)) : List String :=
  dedupFirst (apps.map (fun e => e.2.appId))

/-- The three outcomes of application resolution as the message handler
interprets them: a resolved socket, the ambiguous case (`findAppSocket`
returned `null` while no target was given and more than one app is
registered), or no target. -/
inductive Resolution where
  | found (s : Sock) : Resolution
  | ambiguous : Resolution
  | noTarget : Resolution
deriving DecidableEq, Repr

/-- The composite resolution performed by the request branch of `message`:
`findAppSocket` plus the caller's ambiguity test
`!appSocket && !targetAppId && apps.size > 1`. -/
def resolveApp (apps : List (Sock × AppConnection)) (targetAppId : Option String) :
    Resolution :=
  match findAppSocket apps targetAppId with
  | some s => .found s
  | none =>
    if !(otruthy targetAppId) && decide (apps.length > 1) then .ambiguous
    else .noTarget

-- ── Built-in server handlers (src/server.ts `handle("ping"|"list-apps"|"list-handlers")`) ──

/-- Run the built-in server handler registered under `mtype`, if any, against
the request payload (`msg.payload ?? {}`): `ping` returns `{}`; `list-apps`
returns relay identity plus one row per connected app; `list-handlers`
returns, per app (optionally filtered to `payload.appId`), its advertised
schema list (`conn.handlers ?? []`). Other types have no server handler. -/
def serverHandlerRun (cfg : ServerConfig) (apps : List (Sock × AppConnection))
    (mtype : String) (payload : Option Payload) : Option RespData :=
  if mtype == "ping" then
    some .obj0
  else if mtype == "list-apps" then
    some (.appsInfo cfg.port cfg.pid cfg.uptime
      (apps.map (fun e => (e.2.appId, e.2.connectedAt))))
  else if mtype == "list-handlers" then
    let target : Option String := payload.bind (·.appId)
    some (.handlersInfo
      ((apps.filter (fun e => !(otruthy target) || e.2.appId == target.getD "")).map
        (fun e => (e.2.appId, e.2.handlers.getD []))))
  else none

/-- Models `broadcast({dir, appId, msg})`: one send per connected watcher, in
watcher-set order. -/
def broadcastOut (watchers : List Sock) (dir : String) (appId : Option String)
    (inner : BMsg) : List (Sock × Wire) :=
  watchers.map (fun w => (w, Wire.bcast dir appId inner))

/-- The ambiguity error text built by the request branch. -/
def multiAppError (apps : List (Sock × AppConnection)) : String :=
  "Multiple apps connected. Specify --app. Available: "
    ++ String.intercalate ", " (listAppIds apps)

/-- Does the frame take the registration branch
(`msg.type === "register" && msg.role === "app" && msg.appId`)? -/
def registerShape (m : Msg) : Bool :=
  m.mtype == some "register" && m.role == some "app" && otruthy m.appId

/-- The `message(ws, raw)` handler of the relay server, for an already decoded
frame, at wall-clock time `now`.  Returns the successor state and the sends
performed, in order.  Branches exactly as the source: registration first,
then response routing, then the request branch, else nothing. -/
def message (cfg : ServerConfig) (now : Nat) (s : ServerState) (ws : Sock)
    (m : Msg) : ServerState × List (Sock × Wire) :=
  let wsData := (mapGet s.conns ws).getD ⟨"cli", none⟩
  if registerShape m then
    -- App registration: set ws.data, insert into apps, broadcast a notice.
    let aid := m.appId.getD ""
    let conn : AppConnection := ⟨aid, now, m.handlers⟩
    let s' := { s with conns := mapSet ws ⟨"app", m.appId⟩ s.conns,
                       apps := mapSet ws conn s.apps }
    (s', broadcastOut s'.watchers "req" (some aid) (.regNotice aid m.handlers))
  else if m.ok.isSome && otruthy m.id then
    -- Response from app → route back to the originating client.
    let rid := m.id.getD ""
    match mapGet s.pending rid with
    | none => (s, [])
    | some p =>
      let appInfo := mapGet s.apps p.appSocket
      ({ s with timers := s.timers.filter (fun t => !(t.tid == p.timer)),
                pending := mapDel s.pending rid },
       broadcastOut s.watchers "res" (appInfo.map (·.appId)) (.resNotice m)
         ++ [(p.cliSocket, Wire.verbatim m)])
  else if otruthy m.id && otruthy m.mtype then
    -- Request from client → built-in, or route to an app.
    let rid := m.id.getD ""
    let rtype := m.mtype.getD ""
    match serverHandlerRun cfg s.apps rtype m.payload with
    | some d => (s, [(ws, .resp rid true (some d) none)])
    | none =>
      let targetAppId := wsData.appId
      match findAppSocket s.apps targetAppId with
      | none =>
        if !(otruthy targetAppId) && decide (s.apps.length > 1) then
          (s, [(ws, .resp rid false none (some (multiAppError s.apps)))])
        else
          let hint := if otruthy targetAppId then
              "No app connected with id: " ++ targetAppId.getD ""
            else "No app connected"
          (s, [(ws, .resp rid false none (some hint))])
      | some asock =>
        -- Forward to the app, arm the safety timer, track the correlation.
        let t : ArmedTimer := ⟨s.nextTid, rid, ws, now + REQUEST_TIMEOUT_MS⟩
        let p : PendingRequest := ⟨ws, asock, s.nextTid⟩
        let s' := { s with timers := s.timers ++ [t], nextTid := s.nextTid + 1,
                           pending := mapSet rid p s.pending }
        let appInfo := mapGet s.apps asock
        (s', broadcastOut s.watchers "req" (appInfo.map (·.appId))
               (.reqNotice rid rtype m.payload)
             ++ [(asock, .fwd rid rtype m.payload)])
  else (s, [])

/-- The `setTimeout` callback armed at forward time, firing timer `tid`: it
deletes whatever correlation is then stored under the captured request id
and sends the captured client a timeout error.  Firing a timer that is no
longer armed does nothing. -/
def fireTimer (s : ServerState) (tid : Nat) : ServerState × List (Sock × Wire) :=
  match s.timers.find? (fun t => t.tid == tid) with
  | none => (s, [])
  | some t =>
    ({ s with timers := s.timers.filter (fun t' => !(t'.tid == tid)),
              pending := mapDel s.pending t.reqId },
     [(t.cli, .resp t.reqId false none (some "Request timed out"))])

/-- Models `cleanupApp(ws)`: drop the app from the registry, broadcast a disconnect
notice, and fail every pending correlation routed to it (clear its timer,
answer its client with an error, delete the entry); other correlations are
untouched. -/
def cleanupApp (s : ServerState) (ws : Sock) : ServerState × List (Sock × Wire) :=
  match mapGet s.apps ws with
  | none => (s, [])
  | some info =>
    let affected := s.pending.filter (fun e => e.2.appSocket == ws)
    let clearedTids := affected.map (fun e => e.2.timer)
    ({ s with apps := mapDel s.apps ws,
              pending := s.pending.filter (fun e => !(e.2.appSocket == ws)),
              timers := s.timers.filter (fun t => !(clearedTids.contains t.tid)) },
     broadcastOut s.watchers "req" (some info.appId) (.discNotice info.appId)
       ++ affected.map (fun e =>
            (e.2.cliSocket, Wire.resp e.1 false none (some "App disconnected"))))

/-- The `close(ws)` handler: an app socket runs `cleanupApp`; a watcher is
removed from the watcher set; a plain client needs no cleanup. -/
def closeConn (s : ServerState) (ws : Sock) : ServerState × List (Sock × Wire) :=
  let wsData := (mapGet s.conns ws).getD ⟨"cli", none⟩
  if wsData.role == "app" then cleanupApp s ws
  else if wsData.role == "watch" then
    ({ s with watchers := s.watchers.filter (fun w => !(w == ws)) }, [])
  else (s, [])

/-- Connection upgrade (`fetch` + `open`): classify the connection from the
query parameters (`role=watch` → watcher, anything else → cli; empty `app`
parameter → no target) and add watchers to the watcher set. -/
def openConn (s : ServerState) (ws : Sock) (roleParam appParam : Option String) :
    ServerState :=
  let role := if roleParam == some "watch" then "watch" else "cli"
  let data : ClientData := ⟨role, if otruthy appParam then appParam else none⟩
  let s' := { s with conns := mapSet ws data s.conns }
  if role == "watch" then { s' with watchers := s'.watchers ++ [ws] } else s'

-- ── Application-side client (src/client.ts) ──

/-- A handler implementation held by the client's `handlers` map: either the
built-in ping handler `() => ({})` or an opaque user-supplied function. -/
inductive CHandler where
  | builtinPing : CHandler
  | user (tag : Nat) : CHandler
deriving DecidableEq, Repr

/-- Models `HandlerConfig` in src/client.ts: implementation plus advertised schema
fields. -/
structure HandlerConfig where
  handler : CHandler
  fields : Option (List HandlerField)
  description : Option String
deriving DecidableEq, Repr

/-- The client's handler registry: the `handlers` map and the advertised
`handlerSchemas` array. -/
structure ClientRegistry where
  handlers : List (String × CHandler)
  handlerSchemas : List HandlerSchema
deriving DecidableEq, Repr

/-- The schema update inside `registerHandler`: replace the first schema with
the same `type` in place (`findIndex` then assignment), else push. -/
def upsertSchema : List HandlerSchema → HandlerSchema → List HandlerSchema
  | [], sc => [sc]
  | s :: rest, sc =>
    if s.htype == sc.htype then sc :: rest else s :: upsertSchema rest sc

/-- Models `registerHandler(type, config)`: store the implementation in the map and
upsert the advertised schema. -/
def registerHandler (st : ClientRegistry) (ty : String) (config : HandlerConfig) :
    ClientRegistry :=
  { handlers := mapSet ty config.handler st.handlers,
    handlerSchemas := upsertSchema st.handlerSchemas
      ⟨ty, config.description, config.fields⟩ }

/-- Models `createHotline(options)`: register the construction-time handlers in
order, then set the built-in ping handler (after them, so it wins over any
construction-time `ping`); the built-in adds no schema entry. -/
def createHotline (optionHandlers : List (String × HandlerConfig)) :
    ClientRegistry :=
  let st := optionHandlers.foldl (fun st e => registerHandler st e.1 e.2) ⟨[], []⟩
  { st with handlers := mapSet "ping" CHandler.builtinPing st.handlers }

/-- The returned `handle(type, config)` function: plain `registerHandler`. -/
def handle (st : ClientRegistry) (ty : String) (config : HandlerConfig) :
    ClientRegistry :=
  registerHandler st ty config

/-- Models `onmessage` handler lookup: `handlers.get(msg.type)`. -/
def dispatch (st : ClientRegistry) (ty : String) : Option CHandler :=
  mapGet st.handlers ty

-- ── Client connection state machine (src/client.ts) ──

/-- The client's connection-lifecycle variables: the current backoff delay,
the armed reconnection timer (carrying the delay it was armed with), and the
caller-initiated-close flag. -/
structure ClientConnState where
  reconnectDelay : Nat
  reconnectTimer : Option Nat
  intentionalClose : Bool
deriving DecidableEq, Repr

/-- The variables' initial values in `createHotline`. -/
def initialClientConn : ClientConnState := ⟨1000, none, false⟩

/-- Models `connect()`: clears the caller-initiated-close flag and opens the socket. -/
def connectCall (s : ClientConnState) : ClientConnState :=
  { s with intentionalClose := false }

/-- Models `ws.onopen`: reset the backoff delay to 1 second (the registration frame
is sent immediately afterwards). -/
def onOpen (s : ClientConnState) : ClientConnState :=
  { s with reconnectDelay := 1000 }

/-- Models `scheduleReconnect()`: a no-op if a timer is already outstanding,
otherwise arm one timer with the current delay. -/
def scheduleReconnect (s : ClientConnState) : ClientConnState :=
  match s.reconnectTimer with
  | some _ => s
  | none => { s with reconnectTimer := some s.reconnectDelay }

/-- Models `ws.onclose`: schedule a reconnect unless the close was caller-initiated. -/
def onClose (s : ClientConnState) : ClientConnState :=
  if s.intentionalClose then s else scheduleReconnect s

/-- The reconnection timer's callback: disarm, double the delay (capped at
`RECONNECT_CAP_MS`), and call `connect()`. -/
def reconnectTimerFire (s : ClientConnState) : ClientConnState :=
  match s.reconnectTimer with
  | none => s
  | some _ =>
    connectCall { s with reconnectTimer := none,
                         reconnectDelay := min (s.reconnectDelay * 2) RECONNECT_CAP_MS }

/-- Models `disconnect()`: set the caller-initiated flag and clear any pending
reconnection timer. -/
def disconnectCall (s : ClientConnState) : ClientConnState :=
  { s with intentionalClose := true, reconnectTimer := none }

/-- One failed reconnection attempt: the armed timer fires (calling
`connect()`), and the attempt fails, closing the socket unintentionally. -/
def failCycle (s : ClientConnState) : ClientConnState :=
  onClose (reconnectTimerFire s)

-- ── Event fan-out (spec §4.2; final-server code not among the sampled files) ──

/-- A one-shot event waiter session: the event name it blocks on and its
optional application filter. -/
structure Waiter where
  sock : Sock
  event : String
  appId : Option String
deriving DecidableEq, Repr

/-- Modelled from the spec: the waiter filter — "first event whose name — and
app id, if the waiter specified one — matches". -/
def waiterMatches (w : Waiter) (aid ev : String) : Bool :=
  w.event == ev && (match w.appId with
    | none => true
    | some t => t == aid)

/-- Modelled from the spec: the relay's handling of an inbound event frame
from a registered application.  The final server's event fan-out code is not
among the sampled source files (only its callers — the CLI `wait` command —
and its documentation appear), so this follows spec §4.2: the event is
delivered to every currently connected observer, tagged with the originating
application id, and to every matching waiter, whose session is then closed
(removed from the waiter set). -/
def handleEvent (watchers : List Sock) (waiters : List Waiter) (aid ev : String)
    (d : Option Payload) : List Waiter × List (Sock × Wire) :=
  (waiters.filter (fun w => !(waiterMatches w aid ev)),
   watchers.map (fun w => (w, Wire.eventFrame aid ev d))
     ++ (waiters.filter (fun w => waiterMatches w aid ev)).map
          (fun w => (w.sock, Wire.eventFrame aid ev d)))

end Hotline

namespace Hotline

-- ── Generic helper lemmas ──

theorem mapGet_mapDel_same {K V : Type} [BEq K] [LawfulBEq K]
    (l : List (K × V)) (k : K) : mapGet (mapDel l k) k = none := by
  unfold mapGet mapDel
  rw [List.find?_eq_none.2]
  · rfl
  · intro x hx
    have := (List.mem_filter.1 hx).2
    simpa using this

theorem find?_append_right {α : Type} (p : α → Bool) (l1 l2 : List α)
    (h : ∀ x ∈ l1, p x = false) : (l1 ++ l2).find? p = l2.find? p := by
  induction l1 with
  | nil => rfl
  | cons x xs ih =>
    rw [List.cons_append, List.find?_cons_of_neg]
    · exact ih (fun y hy => h y (List.mem_cons_of_mem _ hy))
    · simp [h x (List.mem_cons_self _ _)]

theorem find?_filter_not_self {α : Type} (p : α → Bool) (l : List α) :
    (l.filter (fun x => !(p x))).find? p = none := by
  rw [List.find?_eq_none.2]
  intro x hx
  have := (List.mem_filter.1 hx).2
  simpa using this

theorem mem_mapSet_self {K V : Type} [BEq K] (k : K) (v : V) (l : List (K × V)) :
    (k, v) ∈ mapSet k v l := by
  induction l with
  | nil => exact List.mem_singleton.2 rfl
  | cons e rest ih =>
    by_cases h : (e.1 == k) = true
    · simp [mapSet, h]
    · rw [mapSet]
      simp only [h, Bool.false_eq_true, if_false]
      exact List.mem_cons_of_mem _ ih

theorem mapGet_mapSet_self {K V : Type} [BEq K] [LawfulBEq K] (k : K) (v : V)
    (l : List (K × V)) : mapGet (mapSet k v l) k = some v := by
  induction l with
  | nil => simp [mapGet, mapSet, List.find?]
  | cons e rest ih =>
    by_cases h : (e.1 == k) = true
    · rw [mapSet]
      simp only [h, if_true]
      simp [mapGet, List.find?]
    · rw [mapSet]
      simp only [h, Bool.false_eq_true, if_false]
      rw [mapGet, List.find?_cons_of_neg _ (by simpa using h)]
      exact ih

theorem find?_append_left {α : Type} (p : α → Bool) (l1 l2 : List α) (x : α)
    (h : l1.find? p = some x) : (l1 ++ l2).find? p = some x := by
  induction l1 with
  | nil => cases h
  | cons a as ih =>
    rw [List.cons_append]
    by_cases hpa : p a = true
    · rw [List.find?_cons_of_pos _ hpa] at h ⊢
      exact h
    · rw [List.find?_cons_of_neg _ (by simpa using hpa)] at h ⊢
      exact ih h

theorem mapGet_cons {K V : Type} [BEq K] (x : K × V) (l : List (K × V)) (k' : K) :
    mapGet (x :: l) k' = if x.1 == k' then some x.2 else mapGet l k' := by
  by_cases h : (x.1 == k') = true
  · have hf : List.find? (fun e => e.1 == k') (x :: l) = some x :=
      List.find?_cons_of_pos _ h
    rw [mapGet, hf, if_pos h]
    rfl
  · have hf : List.find? (fun e => e.1 == k') (x :: l)
        = List.find? (fun e => e.1 == k') l :=
      List.find?_cons_of_neg _ (by simpa using h)
    rw [mapGet, hf, if_neg h, mapGet]

theorem mapGet_mapSet_ne {K V : Type} [BEq K] [LawfulBEq K] (k k' : K) (v : V)
    (l : List (K × V)) (h : k' ≠ k) : mapGet (mapSet k v l) k' = mapGet l k' := by
  have hkk' : (k == k') = false := by simpa using fun e => h e.symm
  induction l with
  | nil =>
    rw [mapSet, mapGet_cons]
    simp [hkk']
  | cons e rest ih =>
    rw [mapSet]
    by_cases hek : (e.1 == k) = true
    · rw [if_pos hek, mapGet_cons, mapGet_cons]
      have heq : e.1 = k := by simpa using hek
      rw [heq, hkk']
      simp
    · rw [if_neg hek, mapGet_cons, mapGet_cons]
      by_cases he' : (e.1 == k') = true
      · simp [he']
      · simp [he', ih]

theorem head?_filter_eq_find? {α : Type} (p : α → Bool) (l : List α) :
    (l.filter p).head? = l.find? p := by
  induction l with
  | nil => rfl
  | cons x xs ih =>
    by_cases h : p x
    · simp [List.filter_cons, h, List.find?_cons_of_pos]
    · simp only [List.filter_cons, h, if_neg, Bool.false_eq_true, ite_false,
        List.find?_cons_of_neg _ h]
      exact ih

theorem mem_dedupFirst {x : String} : ∀ {l : List String}, x ∈ l → x ∈ dedupFirst l := by
  intro l
  induction l using dedupFirst.induct with
  | case1 => intro h; cases h
  | case2 y ys ih =>
    intro h
    rw [dedupFirst]
    rcases List.mem_cons.1 h with rfl | hmem
    · exact List.mem_cons_self _ _
    · by_cases hxy : x = y
      · subst hxy; exact List.mem_cons_self _ _
      · refine List.mem_cons_of_mem _ (ih ?_)
        refine List.mem_filter.2 ⟨hmem, ?_⟩
        simp [hxy]

/-- Resolution with a nonempty target id returns the first entry of the
registry whose `appId` equals it. -/
theorem findAppSocket_target (apps : List (Sock × AppConnection)) (t : String)
    (ht : ¬t.isEmpty) :
    findAppSocket apps (some t)
      = (apps.find? (fun e => e.2.appId == t)).map (·.1) := by
  cases apps with
  | nil => rfl
  | cons e rest =>
    have htr : otruthy (some t) = true := by simp [otruthy, ht]
    rw [findAppSocket]
    simp only [htr, Bool.not_true, Bool.false_eq_true, if_false, Option.getD_some]
    have hhead := head?_filter_eq_find? (fun x => x.2.appId == t) (e :: rest)
    cases hfil : (e :: rest).filter (fun x => x.2.appId == t) with
    | nil =>
      rw [hfil] at hhead
      rw [← hhead]
      rfl
    | cons m ms =>
      rw [hfil] at hhead
      rw [← hhead]
      rfl

-- ── Claims ──

/-- Claim C1: application resolution over the current registry — an empty
registry resolves to no target; an omitted target with exactly one registered
application resolves to that application; an omitted target with more than one
registered application is ambiguous; a given (nonempty) target resolves to the
first-registered application whose `appId` equals it, or to no target when
none matches. -/
theorem claim_C1 (apps : List (Sock × AppConnection)) (target : Option String) :
    (apps = [] → resolveApp apps target = .noTarget)
    ∧ (∀ e, apps = [e] → resolveApp apps none = .found e.1)
    ∧ (1 < apps.length → resolveApp apps none = .ambiguous)
    ∧ (∀ t : String, ¬t.isEmpty →
        resolveApp apps (some t)
          = match apps.find? (fun e => e.2.appId == t) with
            | some e => .found e.1
            | none => .noTarget) := by
  refine ⟨?_, ?_, ?_, ?_⟩
  · rintro rfl
    cases target with
    | none => rfl
    | some t => simp [resolveApp, findAppSocket]
  · rintro e rfl
    rfl
  · intro hlen
    cases apps with
    | nil => simp at hlen
    | cons e rest =>
      cases rest with
      | nil => simp at hlen
      | cons f rest' =>
        have h1 : findAppSocket (e :: f :: rest') none = none := rfl
        rw [resolveApp, h1]
        simp [otruthy, hlen]
  · intro t ht
    rw [resolveApp, findAppSocket_target apps t ht]
    cases hf : apps.find? (fun e => e.2.appId == t) with
    | some e => rfl
    | none =>
      simp only [Option.map_none']
      have : otruthy (some t) = true := by simp [otruthy, ht]
      simp [this]

/-- Witness for C1 at a concrete registry of two applications. -/
theorem claim_C1_witness :
    (1 < ([(3, ⟨"a", 0, none⟩), (4, ⟨"b", 1, none⟩)] :
        List (Sock × AppConnection)).length)
    ∧ resolveApp [(3, ⟨"a", 0, none⟩), (4, ⟨"b", 1, none⟩)] none = .ambiguous :=
  ⟨by decide,
   (claim_C1 [(3, ⟨"a", 0, none⟩), (4, ⟨"b", 1, none⟩)] none).2.2.1 (by decide)⟩

/-- Claim C2 (amended: a frame that additionally matches the registration
shape is consumed as a registration first, per the handler's branch order):
for every inbound non-registration frame with an `ok` field and an `id`
present in the pending table, the relay removes that correlation, stops its
timer, and forwards the frame verbatim to the originating client; if the `id`
is not in the table the frame is dropped — no send occurs and the state is
unchanged. -/
theorem claim_C2 (cfg : ServerConfig) (now : Nat) (s : ServerState) (ws : Sock)
    (m : Msg) (hreg : registerShape m = false) (hok : m.ok.isSome = true)
    (hid : otruthy m.id = true) :
    (∀ p, mapGet s.pending (m.id.getD "") = some p →
        (message cfg now s ws m).1.pending = mapDel s.pending (m.id.getD "")
        ∧ mapGet (message cfg now s ws m).1.pending (m.id.getD "") = none
        ∧ (∀ t ∈ (message cfg now s ws m).1.timers, t.tid ≠ p.timer)
        ∧ (message cfg now s ws m).2
            = broadcastOut s.watchers "res"
                ((mapGet s.apps p.appSocket).map (·.appId)) (.resNotice m)
              ++ [(p.cliSocket, Wire.verbatim m)])
    ∧ (mapGet s.pending (m.id.getD "") = none →
        message cfg now s ws m = (s, [])) := by
  constructor
  · intro p hp
    simp only [message, hreg, Bool.false_eq_true, if_false, hok, hid,
      Bool.and_self, if_true, hp]
    refine ⟨trivial, ?_, ?_, trivial⟩
    · exact mapGet_mapDel_same s.pending (m.id.getD "")
    · intro t ht
      have := (List.mem_filter.1 ht).2
      simpa using this
  · intro hp
    simp only [message, hreg, Bool.false_eq_true, if_false, hok, hid,
      Bool.and_self, if_true, hp]

/-- Counterexample to C2 as stated: a frame that carries `ok:true` and an `id`
present in the pending table but also matches the registration shape is
consumed by the registration branch — the correlation stays in the table and
nothing is forwarded to the originating client. -/
theorem claim_C2_counterexample :
    (Msg.mk (some "register") (some "app") (some "x") none (some true)
        (some "r1") none).ok.isSome = true
    ∧ otruthy (Msg.mk (some "register") (some "app") (some "x") none (some true)
        (some "r1") none).id = true
    ∧ mapGet (ServerState.mk [] [] [("r1", ⟨1, 2, 0⟩)] [] [⟨0, "r1", 1, 30000⟩]
        1).pending "r1" = some ⟨1, 2, 0⟩
    ∧ (message ⟨8675, 1, 0⟩ 0
        ⟨[], [], [("r1", ⟨1, 2, 0⟩)], [], [⟨0, "r1", 1, 30000⟩], 1⟩ 9
        (Msg.mk (some "register") (some "app") (some "x") none (some true)
          (some "r1") none)).1.pending = [("r1", ⟨1, 2, 0⟩)]
    ∧ (message ⟨8675, 1, 0⟩ 0
        ⟨[], [], [("r1", ⟨1, 2, 0⟩)], [], [⟨0, "r1", 1, 30000⟩], 1⟩ 9
        (Msg.mk (some "register") (some "app") (some "x") none (some true)
          (some "r1") none)).2 = [] := by
  decide

/-- Witness for C2 at a concrete state: a plain response frame whose id is
pending is routed back verbatim to the originating client. -/
theorem claim_C2_witness :
    registerShape (Msg.mk none none none none (some true) (some "r1") none)
        = false
    ∧ ((Msg.mk none none none none (some true) (some "r1") none).ok.isSome
        = true)
    ∧ otruthy (Msg.mk none none none none (some true) (some "r1") none).id
        = true
    ∧ (mapGet (ServerState.mk [(2, ⟨"a", 0, none⟩)] [] [("r1", ⟨1, 2, 0⟩)] []
        [⟨0, "r1", 1, 30000⟩] 1).pending
        ((Msg.mk none none none none (some true) (some "r1") none).id.getD "")
        = some ⟨1, 2, 0⟩)
    ∧ (message ⟨8675, 1, 0⟩ 5
        ⟨[(2, ⟨"a", 0, none⟩)], [], [("r1", ⟨1, 2, 0⟩)], [], [⟨0, "r1", 1, 30000⟩], 1⟩
        2 (Msg.mk none none none none (some true) (some "r1") none)).2
      = broadcastOut [] "res" (some "a")
          (.resNotice (Msg.mk none none none none (some true) (some "r1") none))
        ++ [(1, Wire.verbatim (Msg.mk none none none none (some true) (some "r1") none))] := by
  refine ⟨by decide, by decide, by decide, by decide, ?_⟩
  have h := (claim_C2 ⟨8675, 1, 0⟩ 5
      ⟨[(2, ⟨"a", 0, none⟩)], [], [("r1", ⟨1, 2, 0⟩)], [], [⟨0, "r1", 1, 30000⟩], 1⟩
      2 (Msg.mk none none none none (some true) (some "r1") none)
      (by decide) (by decide) (by decide)).1 ⟨1, 2, 0⟩ (by decide)
  exact h.2.2.2

/-- Claim C3: for a request forwarded to an application, the safety timer is
armed for exactly `now + REQUEST_TIMEOUT_MS` (the configured deadline, so the
timeout fires no later than it); firing it sends exactly one `ok:false`
timeout error to the originating client and nothing to anyone else (in
particular the application is not notified), removes the correlation; a later
reply carrying the same id is then dropped without any delivery, and
re-firing the timer delivers nothing (the error is sent exactly once). -/
theorem claim_C3 (cfg : ServerConfig) (now : Nat) (s : ServerState) (ws : Sock)
    (m : Msg) (asock : Sock)
    (hreg : registerShape m = false) (hok : m.ok = none)
    (hid : otruthy m.id = true) (htype : otruthy m.mtype = true)
    (hsrv : serverHandlerRun cfg s.apps (m.mtype.getD "") m.payload = none)
    (hfind : findAppSocket s.apps
        ((mapGet s.conns ws).getD ⟨"cli", none⟩).appId = some asock)
    (hfresh : ∀ t ∈ s.timers, t.tid ≠ s.nextTid) :
    ((message cfg now s ws m).1.timers
        = s.timers ++ [⟨s.nextTid, m.id.getD "", ws, now + REQUEST_TIMEOUT_MS⟩])
    ∧ ((fireTimer (message cfg now s ws m).1 s.nextTid).2
        = [(ws, .resp (m.id.getD "") false none (some "Request timed out"))])
    ∧ (mapGet (fireTimer (message cfg now s ws m).1 s.nextTid).1.pending
        (m.id.getD "") = none)
    ∧ (∀ (m' : Msg) (ws' : Sock) (now' : Nat), registerShape m' = false →
        m'.ok.isSome = true → m'.id = m.id →
        message cfg now' (fireTimer (message cfg now s ws m).1 s.nextTid).1 ws' m'
          = ((fireTimer (message cfg now s ws m).1 s.nextTid).1, []))
    ∧ (fireTimer (fireTimer (message cfg now s ws m).1 s.nextTid).1 s.nextTid
        = ((fireTimer (message cfg now s ws m).1 s.nextTid).1, [])) := by
  have hok' : m.ok.isSome = false := by rw [hok]; rfl
  have hs' : (message cfg now s ws m).1
      = { s with
          timers := s.timers
            ++ [⟨s.nextTid, m.id.getD "", ws, now + REQUEST_TIMEOUT_MS⟩],
          nextTid := s.nextTid + 1,
          pending := mapSet (m.id.getD "") ⟨ws, asock, s.nextTid⟩ s.pending } := by
    simp only [message, hreg, Bool.false_eq_true, if_false, hok',
      Bool.false_and, hid, htype, Bool.and_self, if_true, hsrv, hfind]
  have hfound : (message cfg now s ws m).1.timers.find?
      (fun t => t.tid == s.nextTid)
      = some ⟨s.nextTid, m.id.getD "", ws, now + REQUEST_TIMEOUT_MS⟩ := by
    rw [hs']
    rw [find?_append_right]
    · rw [List.find?_cons_of_pos _ (by simp)]
    · intro t ht
      simpa using hfresh t ht
  have hfire : fireTimer (message cfg now s ws m).1 s.nextTid
      = ({ (message cfg now s ws m).1 with
           timers := (message cfg now s ws m).1.timers.filter
             (fun t' => !(t'.tid == s.nextTid)),
           pending := mapDel (message cfg now s ws m).1.pending (m.id.getD "") },
         [(ws, .resp (m.id.getD "") false none (some "Request timed out"))]) := by
    rw [fireTimer, hfound]
  refine ⟨by rw [hs'], by rw [hfire], ?_, ?_, ?_⟩
  · rw [hfire]
    exact mapGet_mapDel_same _ _
  · intro m' ws' now' hreg' hok2 hid2
    have hid2' : otruthy m'.id = true := by rw [hid2]; exact hid
    generalize hgen : (fireTimer (message cfg now s ws m).1 s.nextTid).1 = s2
    have hpend : mapGet s2.pending (m'.id.getD "") = none := by
      rw [← hgen, hid2, hfire]
      exact mapGet_mapDel_same _ _
    simp only [message, hreg', Bool.false_eq_true, if_false, hok2, hid2',
      Bool.and_self, if_true, hpend]
  · generalize hgen : (fireTimer (message cfg now s ws m).1 s.nextTid).1 = s2
    have hnone : s2.timers.find? (fun t => t.tid == s.nextTid) = none := by
      rw [← hgen, hfire]
      exact find?_filter_not_self _ _
    rw [fireTimer, hnone]

/-- Witness for C3: one app, one client, a forwarded `echo` request; the armed
timer fires, the client gets the single timeout error, and a late reply is
dropped. -/
theorem claim_C3_witness :
    (registerShape (Msg.mk (some "echo") none none none none (some "r") none)
        = false)
    ∧ ((fireTimer (message ⟨8675, 1, 0⟩ 100
          ⟨[(2, ⟨"a", 0, none⟩)], [], [], [(1, ⟨"cli", none⟩)], [], 0⟩ 1
          (Msg.mk (some "echo") none none none none (some "r") none)).1 0).2
        = [(1, .resp "r" false none (some "Request timed out"))])
    ∧ (message ⟨8675, 1, 0⟩ 200
        (fireTimer (message ⟨8675, 1, 0⟩ 100
          ⟨[(2, ⟨"a", 0, none⟩)], [], [], [(1, ⟨"cli", none⟩)], [], 0⟩ 1
          (Msg.mk (some "echo") none none none none (some "r") none)).1 0).1 2
        (Msg.mk none none none none (some true) (some "r") none)
        = ((fireTimer (message ⟨8675, 1, 0⟩ 100
            ⟨[(2, ⟨"a", 0, none⟩)], [], [], [(1, ⟨"cli", none⟩)], [], 0⟩ 1
            (Msg.mk (some "echo") none none none none (some "r") none)).1 0).1,
           [])) := by
  have h := claim_C3 ⟨8675, 1, 0⟩ 100
      ⟨[(2, ⟨"a", 0, none⟩)], [], [], [(1, ⟨"cli", none⟩)], [], 0⟩ 1
      (Msg.mk (some "echo") none none none none (some "r") none) 2
      (by decide) (by decide) (by decide) (by decide) (by decide) (by decide)
      (by intro t ht; cases ht)
  exact ⟨by decide, h.2.1,
    h.2.2.2.1 (Msg.mk none none none none (some true) (some "r") none) 2 200
      (by decide) (by decide) (by decide)⟩

/-- Claim C4: when an application session closes, every pending correlation
targeting that session is removed, its timer is cancelled, and its
originating client is sent an `ok:false` "App disconnected" response;
correlations targeting any other session survive unchanged. -/
theorem claim_C4 (s : ServerState) (ws : Sock) (info : AppConnection)
    (happ : mapGet s.apps ws = some info)
    (hrole : ((mapGet s.conns ws).getD ⟨"cli", none⟩).role = "app") :
    (closeConn s ws).1.pending
        = s.pending.filter (fun e => !(e.2.appSocket == ws))
    ∧ (∀ e ∈ s.pending, e.2.appSocket = ws →
        e ∉ (closeConn s ws).1.pending
        ∧ (e.2.cliSocket, Wire.resp e.1 false none (some "App disconnected"))
            ∈ (closeConn s ws).2
        ∧ ∀ t ∈ (closeConn s ws).1.timers, t.tid ≠ e.2.timer)
    ∧ (∀ e ∈ s.pending, e.2.appSocket ≠ ws → e ∈ (closeConn s ws).1.pending) := by
  have hc : closeConn s ws = cleanupApp s ws := by
    simp only [closeConn]
    rw [hrole]
    rfl
  refine ⟨?_, ?_, ?_⟩
  · simp only [hc, cleanupApp, happ]
  · intro e he heq
    refine ⟨?_, ?_, ?_⟩
    · simp only [hc, cleanupApp, happ]
      intro hmem
      have := (List.mem_filter.1 hmem).2
      rw [heq] at this
      simp at this
    · simp only [hc, cleanupApp, happ]
      apply List.mem_append_right
      exact List.mem_map.2 ⟨e, List.mem_filter.2 ⟨he, by simp [heq]⟩, rfl⟩
    · simp only [hc, cleanupApp, happ]
      intro t ht heqt
      have h2 := (List.mem_filter.1 ht).2
      have h3 : e.2.timer ∈ (s.pending.filter
          (fun x => x.2.appSocket == ws)).map (fun x => x.2.timer) :=
        List.mem_map.2 ⟨e, List.mem_filter.2 ⟨he, by simp [heq]⟩, rfl⟩
      simp only [Bool.not_eq_true'] at h2
      rw [heqt] at h2
      have h4 : (List.map (fun x => x.2.timer)
          (List.filter (fun x => x.2.appSocket == ws) s.pending)).contains
            e.2.timer = true :=
        List.elem_eq_true_of_mem h3
      rw [h4] at h2
      cases h2
  · intro e he hne
    simp only [hc, cleanupApp, happ]
    exact List.mem_filter.2 ⟨he, by simp [hne]⟩

/-- Witness for C4: two apps with one pending correlation each; closing app
socket 2 fails its correlation (client 1 gets the error, timer 0 cancelled)
and leaves the correlation routed to app socket 3 untouched. -/
theorem claim_C4_witness :
    (mapGet (ServerState.mk [(2, ⟨"a", 0, none⟩), (3, ⟨"b", 0, none⟩)] []
        [("r1", ⟨1, 2, 0⟩), ("r2", ⟨4, 3, 1⟩)]
        [(2, ⟨"app", some "a"⟩), (3, ⟨"app", some "b"⟩)]
        [⟨0, "r1", 1, 30⟩, ⟨1, "r2", 4, 40⟩] 2).apps 2 = some ⟨"a", 0, none⟩)
    ∧ (("r1", (⟨1, 2, 0⟩ : PendingRequest))
        ∉ (closeConn ⟨[(2, ⟨"a", 0, none⟩), (3, ⟨"b", 0, none⟩)], [],
            [("r1", ⟨1, 2, 0⟩), ("r2", ⟨4, 3, 1⟩)],
            [(2, ⟨"app", some "a"⟩), (3, ⟨"app", some "b"⟩)],
            [⟨0, "r1", 1, 30⟩, ⟨1, "r2", 4, 40⟩], 2⟩ 2).1.pending)
    ∧ ((1, Wire.resp "r1" false none (some "App disconnected"))
        ∈ (closeConn ⟨[(2, ⟨"a", 0, none⟩), (3, ⟨"b", 0, none⟩)], [],
            [("r1", ⟨1, 2, 0⟩), ("r2", ⟨4, 3, 1⟩)],
            [(2, ⟨"app", some "a"⟩), (3, ⟨"app", some "b"⟩)],
            [⟨0, "r1", 1, 30⟩, ⟨1, "r2", 4, 40⟩], 2⟩ 2).2)
    ∧ (("r2", (⟨4, 3, 1⟩ : PendingRequest))
        ∈ (closeConn ⟨[(2, ⟨"a", 0, none⟩), (3, ⟨"b", 0, none⟩)], [],
            [("r1", ⟨1, 2, 0⟩), ("r2", ⟨4, 3, 1⟩)],
            [(2, ⟨"app", some "a"⟩), (3, ⟨"app", some "b"⟩)],
            [⟨0, "r1", 1, 30⟩, ⟨1, "r2", 4, 40⟩], 2⟩ 2).1.pending) := by
  have h := claim_C4 ⟨[(2, ⟨"a", 0, none⟩), (3, ⟨"b", 0, none⟩)], [],
      [("r1", ⟨1, 2, 0⟩), ("r2", ⟨4, 3, 1⟩)],
      [(2, ⟨"app", some "a"⟩), (3, ⟨"app", some "b"⟩)],
      [⟨0, "r1", 1, 30⟩, ⟨1, "r2", 4, 40⟩], 2⟩ 2 ⟨"a", 0, none⟩
      (by decide) (by decide)
  have h1 := h.2.1 ("r1", ⟨1, 2, 0⟩) (by decide) (by decide)
  have h2 := h.2.2 ("r2", ⟨4, 3, 1⟩) (by decide) (by decide)
  exact ⟨by decide, h1.1, h1.2.1, h2⟩

/-- Claim C6 (amended: only for request types that are not server-handled
built-in commands — `ping`, `list-apps` and `list-handlers` are answered by
the relay itself before target resolution): a request frame from a client
with no target application id while two or more applications are registered
is answered immediately with an `ok:false` error whose text lists every
connected application id, the state is unchanged, and no pending correlation
is created. -/
theorem claim_C6 (cfg : ServerConfig) (now : Nat) (s : ServerState) (ws : Sock)
    (m : Msg) (hreg : registerShape m = false) (hok : m.ok = none)
    (hid : otruthy m.id = true) (htype : otruthy m.mtype = true)
    (hsrv : serverHandlerRun cfg s.apps (m.mtype.getD "") m.payload = none)
    (htarget : otruthy ((mapGet s.conns ws).getD ⟨"cli", none⟩).appId = false)
    (hlen : 1 < s.apps.length) :
    message cfg now s ws m
      = (s, [(ws, .resp (m.id.getD "") false none (some (multiAppError s.apps)))])
    ∧ (∀ a ∈ s.apps, a.2.appId ∈ listAppIds s.apps)
    ∧ multiAppError s.apps
        = "Multiple apps connected. Specify --app. Available: "
          ++ String.intercalate ", " (listAppIds s.apps) := by
  refine ⟨?_, ?_, rfl⟩
  · have hok' : m.ok.isSome = false := by rw [hok]; rfl
    have hfind : findAppSocket s.apps
        ((mapGet s.conns ws).getD ⟨"cli", none⟩).appId = none := by
      cases hap : s.apps with
      | nil => rfl
      | cons e rest =>
        cases rest with
        | nil => rw [hap] at hlen; simp at hlen
        | cons f rest' =>
          rw [findAppSocket]
          simp [htarget]
    simp only [message, hreg, Bool.false_eq_true, if_false, hok',
      Bool.false_and, hid, htype, Bool.and_self, if_true, hsrv, hfind,
      htarget, Bool.not_false, Bool.true_and]
    simp [hlen]
  · intro a ha
    exact mem_dedupFirst (List.mem_map.2 ⟨a, ha, rfl⟩)

/-- Counterexample to C6 as stated: with two applications registered and no
target given, a `ping` request is answered `ok:true` by the relay's built-in
handler, not with the ambiguity error. -/
theorem claim_C6_counterexample :
    (1 < (ServerState.mk [(2, ⟨"a", 0, none⟩), (3, ⟨"b", 0, none⟩)] [] []
        [(1, ⟨"cli", none⟩)] [] 0).apps.length)
    ∧ ((mapGet (ServerState.mk [(2, ⟨"a", 0, none⟩), (3, ⟨"b", 0, none⟩)] [] []
        [(1, ⟨"cli", none⟩)] [] 0).conns 1).getD ⟨"cli", none⟩).appId = none
    ∧ (message ⟨8675, 1, 0⟩ 0
        ⟨[(2, ⟨"a", 0, none⟩), (3, ⟨"b", 0, none⟩)], [], [],
          [(1, ⟨"cli", none⟩)], [], 0⟩ 1
        (Msg.mk (some "ping") none none none none (some "q") none)).2
      = [(1, Wire.resp "q" true (some .obj0) none)] := by
  decide

/-- Witness for C6 at a concrete state: a non-built-in request with two apps
registered and no target yields the ambiguity error listing both ids. -/
theorem claim_C6_witness :
    (1 < (ServerState.mk [(2, ⟨"a", 0, none⟩), (3, ⟨"b", 0, none⟩)] [] []
        [(1, ⟨"cli", none⟩)] [] 0).apps.length)
    ∧ (message ⟨8675, 1, 0⟩ 0
        ⟨[(2, ⟨"a", 0, none⟩), (3, ⟨"b", 0, none⟩)], [], [],
          [(1, ⟨"cli", none⟩)], [], 0⟩ 1
        (Msg.mk (some "do-thing") none none none none (some "q") none)).1.pending = []
    ∧ (message ⟨8675, 1, 0⟩ 0
        ⟨[(2, ⟨"a", 0, none⟩), (3, ⟨"b", 0, none⟩)], [], [],
          [(1, ⟨"cli", none⟩)], [], 0⟩ 1
        (Msg.mk (some "do-thing") none none none none (some "q") none)).2
      = [(1, Wire.resp "q" false none
          (some (multiAppError [(2, ⟨"a", 0, none⟩), (3, ⟨"b", 0, none⟩)])))] := by
  have h := claim_C6 ⟨8675, 1, 0⟩ 0
      ⟨[(2, ⟨"a", 0, none⟩), (3, ⟨"b", 0, none⟩)], [], [],
        [(1, ⟨"cli", none⟩)], [], 0⟩ 1
      (Msg.mk (some "do-thing") none none none none (some "q") none)
      (by decide) (by decide) (by decide) (by decide) (by decide) (by decide)
      (by decide)
  exact ⟨by decide, by rw [h.1], by rw [h.1]; rfl⟩

/-- Claim C7: registering an application with a handler schema list and then
issuing the `list-handlers` built-in command returns, for that application,
exactly the registered schema list, unmodified — the response row
`(appId, hs)` appears among the returned entries, which are built directly
from the live registry. -/
theorem claim_C7 (cfg : ServerConfig) (now now2 : Nat) (s : ServerState)
    (ws wsc : Sock) (m q : Msg) (hs : List HandlerSchema)
    (hreg : registerShape m = true) (hh : m.handlers = some hs)
    (hqreg : registerShape q = false) (hqok : q.ok = none)
    (hqid : otruthy q.id = true) (hqtype : q.mtype = some "list-handlers")
    (htarget : otruthy (q.payload.bind (·.appId)) = false) :
    (message cfg now2 (message cfg now s ws m).1 wsc q).2
      = [(wsc, Wire.resp (q.id.getD "") true
          (some (.handlersInfo ((message cfg now s ws m).1.apps.map
            (fun e => (e.2.appId, e.2.handlers.getD []))))) none)]
    ∧ (m.appId.getD "", hs) ∈ (message cfg now s ws m).1.apps.map
        (fun e => (e.2.appId, e.2.handlers.getD [])) := by
  have hqok' : q.ok.isSome = false := by rw [hqok]; rfl
  have hqt : otruthy q.mtype = true := by rw [hqtype]; rfl
  constructor
  · generalize (message cfg now s ws m).1 = s1
    have hsrv : serverHandlerRun cfg s1.apps "list-handlers" q.payload
        = some (.handlersInfo (s1.apps.map
            (fun e => (e.2.appId, e.2.handlers.getD [])))) := by
      have hfil : s1.apps.filter
          (fun e => !(otruthy (q.payload.bind (·.appId)))
            || e.2.appId == (q.payload.bind (·.appId)).getD "") = s1.apps :=
        List.filter_eq_self.2 (fun x _ => by rw [htarget]; rfl)
      calc serverHandlerRun cfg s1.apps "list-handlers" q.payload
          = some (.handlersInfo ((s1.apps.filter
              (fun e => !(otruthy (q.payload.bind (·.appId)))
                || e.2.appId == (q.payload.bind (·.appId)).getD "")).map
              (fun e => (e.2.appId, e.2.handlers.getD [])))) := rfl
        _ = _ := by rw [hfil]
    simp only [message, hqreg, Bool.false_eq_true, if_false, hqok',
      Bool.false_and, hqid, hqt, Bool.and_self, if_true, hqtype,
      Option.getD_some, hsrv]
    rfl
  · have hs1 : (message cfg now s ws m).1.apps
        = mapSet ws ⟨m.appId.getD "", now, m.handlers⟩ s.apps := by
      simp only [message, hreg, if_true]
    rw [hs1]
    refine List.mem_map.2 ⟨(ws, ⟨m.appId.getD "", now, m.handlers⟩), ?_, ?_⟩
    · exact mem_mapSet_self _ _ _
    · rw [hh]
      rfl

/-- Witness for C7: register app "a" with a one-element schema list, then
`list-handlers` reports exactly that list for "a". -/
theorem claim_C7_witness :
    (registerShape (Msg.mk (some "register") (some "app") (some "a")
        (some [⟨"get-state", some "Get state", none⟩]) none none none) = true)
    ∧ (message ⟨8675, 1, 0⟩ 7
        (message ⟨8675, 1, 0⟩ 3 ⟨[], [], [], [(1, ⟨"cli", none⟩)], [], 0⟩ 2
          (Msg.mk (some "register") (some "app") (some "a")
            (some [⟨"get-state", some "Get state", none⟩]) none none none)).1 1
        (Msg.mk (some "list-handlers") none none none none (some "q") none)).2
      = [(1, Wire.resp "q" true
          (some (.handlersInfo [("a", [⟨"get-state", some "Get state", none⟩])]))
          none)]
    ∧ ("a", [(⟨"get-state", some "Get state", none⟩ : HandlerSchema)])
        ∈ (message ⟨8675, 1, 0⟩ 3 ⟨[], [], [], [(1, ⟨"cli", none⟩)], [], 0⟩ 2
            (Msg.mk (some "register") (some "app") (some "a")
              (some [⟨"get-state", some "Get state", none⟩]) none none none)).1.apps.map
            (fun e => (e.2.appId, e.2.handlers.getD [])) := by
  have h := claim_C7 ⟨8675, 1, 0⟩ 3 7 ⟨[], [], [], [(1, ⟨"cli", none⟩)], [], 0⟩ 2 1
      (Msg.mk (some "register") (some "app") (some "a")
        (some [⟨"get-state", some "Get state", none⟩]) none none none)
      (Msg.mk (some "list-handlers") none none none none (some "q") none)
      [⟨"get-state", some "Get state", none⟩]
      (by decide) (by decide) (by decide) (by decide) (by decide) (by decide)
      (by decide)
  refine ⟨by decide, ?_, h.2⟩
  rw [h.1]
  rfl

/-- Claim C10 (amended: the orphaned timer's closure captured the earlier
request's socket, so the timeout error goes to the earlier client, not the
overwriting one): when a request frame arrives whose id already has a pending
correlation, the relay overwrites the table entry with the new correlation
without cancelling the earlier entry's timer; when that orphaned timer later
fires it deletes whatever correlation is then stored under the id and sends
the timeout error to the earlier request's client, so an application reply
arriving after that point is dropped and the overwriting request's client
never receives it. -/
theorem claim_C10 (cfg : ServerConfig) (now : Nat) (s : ServerState) (ws : Sock)
    (m : Msg) (asock : Sock) (p1 : PendingRequest) (e1 : Nat)
    (hreg : registerShape m = false) (hok : m.ok = none)
    (hid : otruthy m.id = true) (htype : otruthy m.mtype = true)
    (hsrv : serverHandlerRun cfg s.apps (m.mtype.getD "") m.payload = none)
    (hfind : findAppSocket s.apps
        ((mapGet s.conns ws).getD ⟨"cli", none⟩).appId = some asock)
    (_hp1 : mapGet s.pending (m.id.getD "") = some p1)
    (ht1 : s.timers.find? (fun t => t.tid == p1.timer)
        = some ⟨p1.timer, m.id.getD "", p1.cliSocket, e1⟩) :
    ((message cfg now s ws m).1.timers.find? (fun t => t.tid == p1.timer)
        = some ⟨p1.timer, m.id.getD "", p1.cliSocket, e1⟩)
    ∧ (mapGet (message cfg now s ws m).1.pending (m.id.getD "")
        = some ⟨ws, asock, s.nextTid⟩)
    ∧ ((fireTimer (message cfg now s ws m).1 p1.timer).2
        = [(p1.cliSocket, .resp (m.id.getD "") false none
            (some "Request timed out"))])
    ∧ (mapGet (fireTimer (message cfg now s ws m).1 p1.timer).1.pending
        (m.id.getD "") = none)
    ∧ (∀ (m' : Msg) (ws' : Sock) (now' : Nat), registerShape m' = false →
        m'.ok.isSome = true → m'.id = m.id →
        message cfg now' (fireTimer (message cfg now s ws m).1 p1.timer).1 ws' m'
          = ((fireTimer (message cfg now s ws m).1 p1.timer).1, [])) := by
  have hok' : m.ok.isSome = false := by rw [hok]; rfl
  have hs' : (message cfg now s ws m).1
      = { s with
          timers := s.timers
            ++ [⟨s.nextTid, m.id.getD "", ws, now + REQUEST_TIMEOUT_MS⟩],
          nextTid := s.nextTid + 1,
          pending := mapSet (m.id.getD "") ⟨ws, asock, s.nextTid⟩ s.pending } := by
    simp only [message, hreg, Bool.false_eq_true, if_false, hok',
      Bool.false_and, hid, htype, Bool.and_self, if_true, hsrv, hfind]
  have hfound : (message cfg now s ws m).1.timers.find?
      (fun t => t.tid == p1.timer)
      = some ⟨p1.timer, m.id.getD "", p1.cliSocket, e1⟩ := by
    rw [hs']
    exact find?_append_left _ _ _ _ ht1
  have hfire : fireTimer (message cfg now s ws m).1 p1.timer
      = ({ (message cfg now s ws m).1 with
           timers := (message cfg now s ws m).1.timers.filter
             (fun t' => !(t'.tid == p1.timer)),
           pending := mapDel (message cfg now s ws m).1.pending (m.id.getD "") },
         [(p1.cliSocket, .resp (m.id.getD "") false none
             (some "Request timed out"))]) := by
    rw [fireTimer, hfound]
  refine ⟨hfound, ?_, by rw [hfire], ?_, ?_⟩
  · rw [hs']
    exact mapGet_mapSet_self _ _ _
  · rw [hfire]
    exact mapGet_mapDel_same _ _
  · intro m' ws' now' hreg' hok2 hid2
    have hid2' : otruthy m'.id = true := by rw [hid2]; exact hid
    generalize hgen : (fireTimer (message cfg now s ws m).1 p1.timer).1 = s2
    have hpend : mapGet s2.pending (m'.id.getD "") = none := by
      rw [← hgen, hid2, hfire]
      exact mapGet_mapDel_same _ _
    simp only [message, hreg', Bool.false_eq_true, if_false, hok2, hid2',
      Bool.and_self, if_true, hpend]

/-- Counterexample to C10 as stated: client 1 sends request id "r", client 2
reuses the same id; when the orphaned first timer fires, the timeout error is
delivered to client 1 — the earlier request's client — not to the overwriting
client 2 as the claim asserts, and the earlier client thereby does receive a
response for that id. -/
theorem claim_C10_counterexample :
    ((fireTimer (message ⟨8675, 1, 0⟩ 200
        (message ⟨8675, 1, 0⟩ 100
          ⟨[(5, ⟨"a", 0, none⟩)], [],  [],
            [(1, ⟨"cli", none⟩), (2, ⟨"cli", none⟩), (5, ⟨"app", some "a"⟩)],
            [], 0⟩ 1
          (Msg.mk (some "cmd") none none none none (some "r") none)).1 2
        (Msg.mk (some "cmd") none none none none (some "r") none)).1 0).2
      = [(1, Wire.resp "r" false none (some "Request timed out"))])
    ∧ (1 : Sock) ≠ 2 := by
  exact ⟨by decide, by decide⟩

/-- Witness for C10 at the same concrete two-client trace: the old timer stays
armed after the overwrite, the table holds the second correlation, firing the
orphaned timer answers client 1 and empties the table, and a late app reply
is then dropped. -/
theorem claim_C10_witness :
    (mapGet (message ⟨8675, 1, 0⟩ 100
        ⟨[(5, ⟨"a", 0, none⟩)], [], [],
          [(1, ⟨"cli", none⟩), (2, ⟨"cli", none⟩), (5, ⟨"app", some "a"⟩)],
          [], 0⟩ 1
        (Msg.mk (some "cmd") none none none none (some "r") none)).1.pending "r"
      = some ⟨1, 5, 0⟩)
    ∧ (mapGet (message ⟨8675, 1, 0⟩ 200
        (message ⟨8675, 1, 0⟩ 100
          ⟨[(5, ⟨"a", 0, none⟩)], [], [],
            [(1, ⟨"cli", none⟩), (2, ⟨"cli", none⟩), (5, ⟨"app", some "a"⟩)],
            [], 0⟩ 1
          (Msg.mk (some "cmd") none none none none (some "r") none)).1 2
        (Msg.mk (some "cmd") none none none none (some "r") none)).1.pending "r"
      = some ⟨2, 5, 1⟩)
    ∧ (message ⟨8675, 1, 0⟩ 300
        (fireTimer (message ⟨8675, 1, 0⟩ 200
          (message ⟨8675, 1, 0⟩ 100
            ⟨[(5, ⟨"a", 0, none⟩)], [], [],
              [(1, ⟨"cli", none⟩), (2, ⟨"cli", none⟩), (5, ⟨"app", some "a"⟩)],
              [], 0⟩ 1
            (Msg.mk (some "cmd") none none none none (some "r") none)).1 2
          (Msg.mk (some "cmd") none none none none (some "r") none)).1 0).1 5
        (Msg.mk none none none none (some true) (some "r") none)).2
      = [] := by
  have h := claim_C10 ⟨8675, 1, 0⟩ 200
      (message ⟨8675, 1, 0⟩ 100
        ⟨[(5, ⟨"a", 0, none⟩)], [], [],
          [(1, ⟨"cli", none⟩), (2, ⟨"cli", none⟩), (5, ⟨"app", some "a"⟩)],
          [], 0⟩ 1
        (Msg.mk (some "cmd") none none none none (some "r") none)).1 2
      (Msg.mk (some "cmd") none none none none (some "r") none) 5 ⟨1, 5, 0⟩
      30100
      (by decide) (by decide) (by decide) (by decide) (by decide) (by decide)
      (by decide) (by decide)
  refine ⟨by decide, h.2.1, ?_⟩
  have hdrop := h.2.2.2.2 (Msg.mk none none none none (some true) (some "r") none)
      5 300 (by decide) (by decide) (by decide)
  rw [hdrop]

/-- Claim C8 (amended: the built-in ping handler is installed at construction
after — not before — the construction-time user handlers, which is why it
takes precedence over any of them; it can, however, be replaced by a later
`handle("ping", ...)` registration): after construction with any handler
options, a ping request is dispatched to the built-in handler, and handler
registrations under any other name preserve this; a post-construction
registration under the name `ping` replaces the built-in handler. -/
theorem claim_C8 (opts : List (String × HandlerConfig)) :
    dispatch (createHotline opts) "ping" = some .builtinPing
    ∧ (∀ (st : ClientRegistry) (ty : String) (config : HandlerConfig),
        ty ≠ "ping" → dispatch st "ping" = some .builtinPing →
        dispatch (handle st ty config) "ping" = some .builtinPing)
    ∧ (∀ (st : ClientRegistry) (config : HandlerConfig),
        dispatch (handle st "ping" config) "ping" = some config.handler) := by
  refine ⟨?_, ?_, ?_⟩
  · exact mapGet_mapSet_self _ _ _
  · intro st ty config hne hping
    rw [dispatch, handle, registerHandler]
    have := mapGet_mapSet_ne ty "ping" config.handler st.handlers
      (fun e => hne e.symm)
    rw [this]
    exact hping
  · intro st config
    exact mapGet_mapSet_self _ _ _

/-- Counterexample to C8 as stated: constructing a client with no handlers
and then registering a user handler under the name `ping` via `handle`
replaces the built-in handler — a subsequent ping request is answered by the
user handler, so the built-in handler can be overridden. -/
theorem claim_C8_counterexample :
    dispatch (handle (createHotline []) "ping" ⟨.user 5, none, none⟩) "ping"
        = some (.user 5)
    ∧ CHandler.user 5 ≠ CHandler.builtinPing := by
  exact ⟨by decide, by decide⟩

/-- Witness for C8: construction-time `ping` loses to the built-in, and a
non-ping `handle` registration preserves the built-in. -/
theorem claim_C8_witness :
    dispatch (createHotline [("ping", ⟨.user 9, none, none⟩)]) "ping"
        = some .builtinPing
    ∧ ("greet" : String) ≠ "ping"
    ∧ dispatch (handle (createHotline [("ping", ⟨.user 9, none, none⟩)])
        "greet" ⟨.user 3, none, none⟩) "ping" = some .builtinPing := by
  have h := claim_C8 [("ping", ⟨.user 9, none, none⟩)]
  exact ⟨h.1, by decide,
    h.2.1 (createHotline [("ping", ⟨.user 9, none, none⟩)]) "greet"
      ⟨.user 3, none, none⟩ (by decide) h.1⟩

/-- Claim C9: reconnection after a non-caller-initiated disconnect is first
scheduled with a 1-second delay; after `k` consecutive failed attempts the
armed delay is `min (1000·2^k) 30000` (doubling, capped at 30 s); a successful
open resets the delay to 1 second; at most one reconnection timer is ever
outstanding (scheduling is a no-op while one is armed); and a caller-initiated
disconnect clears the timer and suppresses the automatic reconnect on the
ensuing close. -/
theorem claim_C9 :
    (onClose initialClientConn).reconnectTimer = some 1000
    ∧ (∀ k : Nat, failCycle^[k] (onClose initialClientConn)
        = ⟨min (1000 * 2 ^ k) RECONNECT_CAP_MS,
           some (min (1000 * 2 ^ k) RECONNECT_CAP_MS), false⟩)
    ∧ (∀ (s : ClientConnState) (d : Nat), s.reconnectTimer = some d →
        scheduleReconnect s = s)
    ∧ (∀ s : ClientConnState, (onOpen s).reconnectDelay = 1000)
    ∧ (∀ s : ClientConnState, (disconnectCall s).reconnectTimer = none
        ∧ onClose (disconnectCall s) = disconnectCall s) := by
  have harith : ∀ k : Nat,
      min (min (1000 * 2 ^ k) RECONNECT_CAP_MS * 2) RECONNECT_CAP_MS
        = min (1000 * 2 ^ (k + 1)) RECONNECT_CAP_MS := by
    intro k
    rw [RECONNECT_CAP_MS, pow_succ, ← mul_assoc]
    generalize (1000 * 2 ^ k) = a
    omega
  refine ⟨rfl, ?_, ?_, fun s => rfl, fun s => ⟨rfl, rfl⟩⟩
  · intro k
    induction k with
    | zero => decide
    | succ k ih =>
      rw [Function.iterate_succ_apply', ih]
      simp only [failCycle, reconnectTimerFire, connectCall, onClose,
        scheduleReconnect]
      rw [harith k]
      rfl
  · intro s d hd
    rw [scheduleReconnect, hd]

/-- Witness for C9: after six consecutive failures the delay is pinned at the
30-second cap, and scheduling with a timer already armed changes nothing. -/
theorem claim_C9_witness :
    failCycle^[6] (onClose initialClientConn) = ⟨30000, some 30000, false⟩
    ∧ (ClientConnState.mk 2000 (some 2000) false).reconnectTimer = some 2000
    ∧ scheduleReconnect ⟨2000, some 2000, false⟩ = ⟨2000, some 2000, false⟩ := by
  refine ⟨?_, by decide,
    claim_C9.2.2.1 ⟨2000, some 2000, false⟩ 2000 (by decide)⟩
  rw [claim_C9.2.1 6]
  decide

/-- Claim C5: an inbound event frame from a registered application is
delivered to every currently connected observer, tagged with the originating
application id; every waiter whose filter matches receives it and its session
is closed (it leaves the waiter set), a non-matching waiter stays and (its
socket being distinct from every watcher's and every other waiter's) receives
nothing, and each waiter receives the event at most once. -/
theorem claim_C5 (watchers : List Sock) (waiters : List Waiter)
    (aid ev : String) (d : Option Payload) :
    (∀ w ∈ watchers,
        (w, Wire.eventFrame aid ev d) ∈ (handleEvent watchers waiters aid ev d).2)
    ∧ (∀ w ∈ waiters, waiterMatches w aid ev = true →
        (w.sock, Wire.eventFrame aid ev d)
            ∈ (handleEvent watchers waiters aid ev d).2
        ∧ w ∉ (handleEvent watchers waiters aid ev d).1)
    ∧ ((waiters.map (·.sock)).Nodup →
        ∀ w ∈ waiters, waiterMatches w aid ev = false →
        w ∈ (handleEvent watchers waiters aid ev d).1
        ∧ (w.sock ∉ watchers →
            ∀ x ∈ (handleEvent watchers waiters aid ev d).2, x.1 ≠ w.sock))
    ∧ ((waiters.map (·.sock)).Nodup →
        ∀ w ∈ waiters, w.sock ∉ watchers →
        (((handleEvent watchers waiters aid ev d).2.map Prod.fst).count w.sock
          ≤ 1)) := by
  refine ⟨?_, ?_, ?_, ?_⟩
  · intro w hw
    exact List.mem_append_left _ (List.mem_map.2 ⟨w, hw, rfl⟩)
  · intro w hw hmatch
    constructor
    · exact List.mem_append_right _
        (List.mem_map.2 ⟨w, List.mem_filter.2 ⟨hw, hmatch⟩, rfl⟩)
    · intro hmem
      have := (List.mem_filter.1 hmem).2
      rw [hmatch] at this
      cases this
  · intro hnodup w hw hmatch
    refine ⟨List.mem_filter.2 ⟨hw, by rw [hmatch]; rfl⟩, ?_⟩
    intro hnw x hx heq
    rcases List.mem_append.1 hx with hx1 | hx2
    · rcases List.mem_map.1 hx1 with ⟨w', hw', rfl⟩
      exact hnw (heq ▸ hw')
    · rcases List.mem_map.1 hx2 with ⟨w', hw', rfl⟩
      have hw'w : w' ∈ waiters := (List.mem_filter.1 hw').1
      have hw'm : waiterMatches w' aid ev = true := (List.mem_filter.1 hw').2
      have : w' = w := List.inj_on_of_nodup_map hnodup hw'w hw heq
      rw [this, hmatch] at hw'm
      cases hw'm
  · intro hnodup w hw hnw
    rw [handleEvent]
    rw [List.map_append, List.map_map, List.map_map, List.count_append]
    have h1 : (watchers.map (Prod.fst ∘ fun w => (w, Wire.eventFrame aid ev d))).count
        w.sock = 0 := by
      rw [List.count_eq_zero]
      intro hmem
      rcases List.mem_map.1 hmem with ⟨y, hy, hyy⟩
      exact hnw (hyy ▸ hy)
    have h2 : ((waiters.filter (fun w => waiterMatches w aid ev)).map
        (Prod.fst ∘ fun w => (w.sock, Wire.eventFrame aid ev d))).count w.sock
        ≤ (waiters.map (fun w => w.sock)).count w.sock := by
      have hsub : List.Sublist
          ((waiters.filter (fun w => waiterMatches w aid ev)).map
            (fun w => w.sock))
          (waiters.map (fun w => w.sock)) :=
        (List.filter_sublist _).map _
      have : ((waiters.filter (fun w => waiterMatches w aid ev)).map
          (Prod.fst ∘ fun w => (w.sock, Wire.eventFrame aid ev d)))
          = (waiters.filter (fun w => waiterMatches w aid ev)).map
              (fun w => w.sock) := by
        simp [Function.comp]
      rw [this]
      exact hsub.count_le _
    have h3 : (waiters.map (fun w => w.sock)).count w.sock ≤ 1 :=
      List.nodup_iff_count_le_one.1 hnodup _
    omega

/-- Witness for C5: one watcher, a matching waiter and a non-matching waiter;
the watcher and the matching waiter each receive the event, the matching
waiter leaves the set, the other stays and receives nothing. -/
theorem claim_C5_witness :
    ((7 : Sock), Wire.eventFrame "a" "nav" none)
        ∈ (handleEvent [7] [⟨8, "nav", none⟩, ⟨9, "other", none⟩] "a" "nav" none).2
    ∧ ((8 : Sock), Wire.eventFrame "a" "nav" none)
        ∈ (handleEvent [7] [⟨8, "nav", none⟩, ⟨9, "other", none⟩] "a" "nav" none).2
    ∧ (Waiter.mk 8 "nav" none)
        ∉ (handleEvent [7] [⟨8, "nav", none⟩, ⟨9, "other", none⟩] "a" "nav" none).1
    ∧ (Waiter.mk 9 "other" none)
        ∈ (handleEvent [7] [⟨8, "nav", none⟩, ⟨9, "other", none⟩] "a" "nav" none).1
    ∧ (∀ x ∈ (handleEvent [7] [⟨8, "nav", none⟩, ⟨9, "other", none⟩]
        "a" "nav" none).2, x.1 ≠ 9) := by
  have h := claim_C5 [7] [⟨8, "nav", none⟩, ⟨9, "other", none⟩] "a" "nav" none
  have hb := h.2.1 ⟨8, "nav", none⟩ (by decide) (by decide)
  have hc := h.2.2.1 (by decide) ⟨9, "other", none⟩ (by decide) (by decide)
  exact ⟨h.1 7 (by decide), hb.1, hb.2, hc.1, hc.2 (by decide)⟩

end Hotline
